import Mathlib

/-!
Verification of the Email_Checker risk-assessment core against its Go source.

Shallow embedding conventions:
* Go `int` becomes `Int`; a count kept in a Go `int` that is provably non-negative
  becomes `Nat`.
* `map[string]bool` becomes `String → Option Bool` (`none` = key absent; the Go
  `nil` map corresponds to `fun _ => none` since every lookup misses).
* The sqlite corpus (`SELECT ... FROM websites`) becomes a `List` of rows in
  iteration order; query failure is an `Except` value.
* External network calls (urlscan.io, Google Custom Search, the Gemini content
  judgment, OCR) are inputs of the embedded functions, holding exactly the data
  the Go code extracts from their responses.
* Emitting a server-sent event is modelled by returning the event payload;
  a task that returns without sending its event returns `none`.
-/

namespace EmailChecker

/-! ### Check registry (Backend/scoreSettings.go) -/

/-- Go `type Check struct { Name string; Description string; Impact int }`. -/
structure Check where
  Name : String
  Description : String
  Impact : Int
deriving DecidableEq

/-- Go `var AllChecks = []Check{...}` (Backend/scoreSettings.go:11-62). -/
def AllChecks : List Check := [
  { Name := "DomainExactMatch",
    Description := "Sender domain exactly matches a known good entry",
    Impact := 30 },
  { Name := "DomainNoSimilarity",
    Description := "Sender domain not in database and no close matches",
    Impact := 17 },
  { Name := "DomainImpersonation",
    Description := "Sender domain similar to a known domain (likely impersonation)",
    Impact := 0 },
  { Name := "freeMailMatch",
    Description := "Sender is from a freeMail (e.g., Gmail, Outlook) which is not professional for business",
    Impact := 12 },
  { Name := "CompanyIdentified",
    Description := "NLP (Gemini) successfully identifies claimed company",
    Impact := 3 },
  { Name := "CompanyVerified",
    Description := "Verified that the sender’s domain matches the company they claim",
    Impact := 20 },
  { Name := "RealismCheck",
    Description := "Content judged realistic (no ludicrous offers or demands)",
    Impact := 25 },
  { Name := "CorrectPhoneNumber",
    Description := "Phone number is valid and matches the company",
    Impact := 4 },
  { Name := "MaliciousURLFound",
    Description := "A URL in the email was identified as malicious or suspicious",
    Impact := 10 },
  { Name := "ExecutableFileFound",
    Description := "A file in the email was identified as an executable",
    Impact := 3 }]

/-- Per-request enabled-check map `map[string]bool`: `none` models an absent key. -/
abbrev EnabledMap := String → Option Bool

/-- Go `isEnabled` (Backend/scoreSettings.go:86-92): an absent key defaults to enabled. -/
def isEnabled (enabled : EnabledMap) (key : String) : Bool :=
  match enabled key with
  | none => true
  | some val => val

/-- Go `positiveImpact` (Backend/scoreSettings.go:112-119): the impact of the first
check with the given name and a positive impact, else 0. -/
def positiveImpact (name : String) : Int :=
  match AllChecks.find? (fun c => c.Name == name && decide (c.Impact > 0)) with
  | some c => c.Impact
  | none => 0

/-- Go `maxDomainImpact` (Backend/scoreSettings.go:94-102): running maximum, started
at 0, over the three mutually-exclusive domain outcomes. -/
def maxDomainImpact : Int :=
  ["DomainExactMatch", "DomainNoSimilarity", "freeMailMatch"].foldl
    (fun maxScore name =>
      if positiveImpact name > maxScore then positiveImpact name else maxScore) 0

/-- Go `textAnalysisImpact` (Backend/scoreSettings.go:104-110): sum of the content
category positive impacts. -/
def textAnalysisImpact : Int :=
  ["CompanyIdentified", "CompanyVerified", "RealismCheck", "CorrectPhoneNumber"].foldl
    (fun sum name => sum + positiveImpact name) 0

/-- Go `MaxScoreFor` (Backend/scoreSettings.go:65-84).  The Go function finishes with
`float64(total)`; the cast is exact on these integers, so the embedding returns `Int`.
The Go `nil`-map guard is subsumed by the `Option`-valued map model. -/
def MaxScoreFor (enabled : EnabledMap) : Int :=
  (if isEnabled enabled "checkDomain" then maxDomainImpact else 0)
  + (if isEnabled enabled "checkUrls" then positiveImpact "MaliciousURLFound" else 0)
  + (if isEnabled enabled "checkAttachments" then positiveImpact "ExecutableFileFound" else 0)
  + (if isEnabled enabled "checkTextAnalysis" || isEnabled enabled "checkRenderedAnalysis"
     then textAnalysisImpact else 0)

/-- Go `MaxScore` (scoreSettings.go:65-83, root copy used by main.go): highest domain
outcome plus the sum of all other positive impacts, in one pass over `AllChecks`. -/
def MaxScore : Int :=
  let folded := AllChecks.foldl
    (fun (acc : Int × Int) c =>
      if c.Name == "DomainExactMatch" || c.Name == "DomainNoSimilarity"
          || c.Name == "freeMailMatch" then
        (if c.Impact > acc.1 then (c.Impact, acc.2) else acc)
      else
        (if c.Impact > 0 then (acc.1, acc.2 + c.Impact) else acc))
    (0, 0)
  folded.1 + folded.2

/-- Go pattern `for _, c := range AllChecks { if c.Name == name { check = c; break } }`
used throughout main.go; the Go zero-value `Check{}` results when nothing matches. -/
def findCheck (name : String) : Check :=
  match AllChecks.find? (fun c => c.Name == name) with
  | some c => c
  | none => { Name := "", Description := "", Impact := 0 }

/-! ### URL reputation verdicts (unnamed part_003, `checkURLs`) -/

/-- Go `type Verdict struct` (part_003:718-724). -/
structure Verdict where
  Score : Int
  Cats : List String
  Report : String
  PlatformVerdict : Bool
  FinalDecision : Bool
deriving DecidableEq

/-- The `finalAppDecision` derivation that `checkURLs` performs, written out twice
verbatim in the source: once for a cached scan hit (part_003:1659-1669) and once for
a freshly polled scan (part_003:1774-1784).  `malicious` and `score` come from the
platform payload `verdicts.overall`; the loop over `categories` with `break` is
`List.any`. -/
def finalAppDecision (malicious : Bool) (score : Int) (categories : List String) : Bool :=
  if malicious || decide (score > 0) then true
  else categories.any (fun cat => cat == "phishing" || cat == "malware")

/-- The `Verdict` value `checkURLs` returns, given the fields the Go code extracts
from the urlscan.io response (part_003:1671-1677 and 1786-1792 build exactly this). -/
def checkURLsVerdict (score : Int) (categories : List String) (report : String)
    (malicious : Bool) : Verdict :=
  { Score := score
    Cats := categories
    Report := report
    PlatformVerdict := malicious
    FinalDecision := finalAppDecision malicious score categories }

/-- Go `type URLAnalysisResult struct` (main.go:45-51). -/
structure URLAnalysisResult where
  Status : String
  Message : String
  MaliciousCount : Nat
  ScoreImpact : Int
  UrlVerdicts : List Verdict
deriving DecidableEq

/-- The verdict-aggregation tail of `performURLAnalysis` (main.go:450-472): count the
verdicts whose `FinalDecision` is set; any such verdict forces status
`MaliciousURLsDetected` with zero score impact, otherwise the category's full
positive impact is awarded. -/
def performURLAnalysisAggregate (verdicts : List Verdict) : URLAnalysisResult :=
  let check := findCheck "MaliciousURLFound"
  let maliciousURLCount := (verdicts.filter (fun v => v.FinalDecision)).length
  if maliciousURLCount > 0 then
    { Status := "MaliciousURLsDetected"
      Message := toString maliciousURLCount ++ " malicious URL(s) were detected."
      MaliciousCount := maliciousURLCount
      ScoreImpact := 0
      UrlVerdicts := verdicts }
  else
    { Status := "Clean"
      Message := "No malicious URLs were found."
      MaliciousCount := maliciousURLCount
      ScoreImpact := check.Impact
      UrlVerdicts := verdicts }

/-- Go `const isURLScanEnabled = false` (main.go:116). -/
def isURLScanEnabled : Bool := false

/-- Go `performURLAnalysis` (main.go:374-473) as the event payload it sends.  When
`isURLScanEnabled` is false it sends the `Disabled` result without touching the
email bodies or the network (main.go:383-391); its remaining fields keep their Go
zero values.  Otherwise it aggregates the resolved per-URL verdicts.  `emailHTML`
and `emailText` are the bodies the enabled branch would extract URLs from, and
`resolvedVerdicts` the verdicts its scan fan-out would collect. -/
def performURLAnalysis (emailHTML emailText : String)
    (resolvedVerdicts : List Verdict) : URLAnalysisResult :=
  let check := findCheck "MaliciousURLFound"
  if !isURLScanEnabled then
    { Status := "Disabled"
      Message := "Url analysis has been turned of by developer temporarily."
      MaliciousCount := 0
      ScoreImpact := check.Impact
      UrlVerdicts := [] }
  else
    performURLAnalysisAggregate resolvedVerdicts

/-! ### Domain reputation matcher (unnamed part_003, `checkDomainReal`) -/

/-- Classic Levenshtein distance with explicit fuel, structurally recursive so that
it evaluates inside the kernel.  Models `fuzzy.LevenshteinDistance` from the
`lithammer/fuzzysearch` package, which computes the standard rune-level edit
distance by dynamic programming.  Every recursive call consumes one unit of fuel
and at least one character, so fuel `xs.length + ys.length` always reaches a base
case before the `0` catch-all (which is therefore unreachable from
`levenshteinDistance`). -/
def levenshteinFuel : Nat → List Char → List Char → Nat
  | _, [], ys => ys.length
  | _, x :: xs, [] => (x :: xs).length
  | 0, _ :: _, _ :: _ => 0
  | fuel + 1, x :: xs, y :: ys =>
      if x = y then levenshteinFuel fuel xs ys
      else 1 + min (levenshteinFuel fuel xs (y :: ys))
                   (min (levenshteinFuel fuel (x :: xs) ys) (levenshteinFuel fuel xs ys))

/-- Rune-level Levenshtein distance between two strings. -/
def levenshteinDistance (s t : String) : Nat :=
  levenshteinFuel (s.data.length + t.data.length) s.data t.data

/-- The adaptive threshold of `checkDomainReal` (part_003:1239-1250), from the byte
length of the normalized domain.  Go computes `int(math.Ceil(float64(l) * 0.15))`
in the long case; for every domain-sized `l` the float64 rounding never crosses an
integer boundary (the fractional parts of `3l/20` are multiples of `1/20`, far
above the float error), so the exact ceiling `⌈3l/20⌉` coincides with it. -/
def levThreshold (l : Nat) : Nat :=
  if l ≤ 11 then 1
  else if l ≤ 15 then 2
  else (3 * l + 19) / 20

/-- ASCII case-folding of one character, as `strings.ToLower` acts on ASCII runes.
(Go lower-cases the full Unicode range; the domains in this development are ASCII,
where the two agree.  Stated over `Char.ofNat` so the kernel can evaluate it;
`String.toLower` itself is defined by well-founded recursion and cannot.) -/
def charToLower (c : Char) : Char :=
  if c.val ≥ 65 && c.val ≤ 90 then Char.ofNat (c.toNat + 32) else c

/-- `strings.ToLower`, restricted to the ASCII behaviour (see `charToLower`). -/
def strToLower (s : String) : String := ⟨s.data.map charToLower⟩

/-- Normalization step of `checkDomainReal` (part_003:1220-1224):
`idna.Lookup.ToASCII(strings.ToLower(domainReal))`, falling back to the plain
lower-casing when IDNA encoding fails.  On ASCII letter/digit/hyphen/dot strings —
every input considered in this development — `idna.Lookup.ToASCII` is the identity
on the lower-cased string, so normalization is lower-casing. -/
def normalizeDomain (domainReal : String) : String := strToLower domainReal

/-- Go `checkDomainReal` (part_003:1209-1283) over the `websites` corpus in
iteration order.  Returns `0` (look-alike / impersonation) with the first corpus
entry within the Levenshtein threshold, `1` (exact match) with the normalized
candidate when the corpus holds it verbatim (the sqlite `=` on the TEXT column is
case-sensitive), or `2` (no similarity) with the normalized candidate.  The
corpus-query failure paths are modelled at the caller (`performDomainAnalysis`). -/
def checkDomainReal (corpus : List String) (domainReal : String) : Nat × String :=
  let ascii := normalizeDomain domainReal
  if corpus.contains ascii then (1, ascii)
  else
    let thresh := levThreshold ascii.utf8ByteSize
    match corpus.find?
        (fun dbDomain => decide (levenshteinDistance ascii (strToLower dbDomain) ≤ thresh)) with
    | some dbDomain => (0, dbDomain)
    | none => (2, ascii)

/-! ### Domain analysis task (main.go `performDomainAnalysis`) -/

/-- Go `type DomainAnalysisResult struct` (main.go:38-44). -/
structure DomainAnalysisResult where
  Status : String
  Message : String
  MatchedDomain : String
  ScoreImpact : Int
  SuspectSubdomain : String
deriving DecidableEq

/-- The Go zero value `DomainAnalysisResult{}`, which `calculateFinalScores` uses
when the `domainAnalysis` event is absent from the collected data. -/
def zeroDomainAnalysisResult : DomainAnalysisResult :=
  { Status := "", Message := "", MatchedDomain := "", ScoreImpact := 0,
    SuspectSubdomain := "" }

/-- A failure of the sqlite corpus query inside `checkDomainReal`. -/
inductive DomainDBError
  | queryFailed
deriving DecidableEq

/-- The free-mail allow-list `trustedProviders` (main.go:299-309). -/
def trustedProviders : List String :=
  ["gmail.com", "googlemail.com", "outlook.com", "hotmail.com", "yahoo.com",
   "aol.com", "icloud.com", "protonmail.com", "zoho.com"]

/-- Go `performDomainAnalysis` (main.go:297-372) as the `domainAnalysis` event
payload it sends; `none` means the function returned without sending any event.
`db` is the corpus query outcome: `.error` models `checkDomainReal` failing, in
which case the Go code only logs (`log.Printf("Domain analysis failed: ...")`,
main.go:336-339 — the comment there reads "Send an error or empty result? For
now, we'll just log it.") and returns with no event. -/
def performDomainAnalysis (db : Except DomainDBError (List String))
    (domain subdomain : String) : Option DomainAnalysisResult :=
  if trustedProviders.contains domain then
    some { Status := "freeMailMatch"
           Message := "Domain is from a free mail provider."
           ScoreImpact := (findCheck "freeMailMatch").Impact
           MatchedDomain := domain
           SuspectSubdomain := subdomain }
  else
    match db with
    | .error _ => none
    | .ok corpus =>
        let res := checkDomainReal corpus domain
        let matchedDomain := res.2
        match res.1 with
        | 0 => some { Status := "DomainImpersonation"
                      Message := "A similar domain \x27" ++ matchedDomain ++
                        "\x27 is in the known database."
                      MatchedDomain := matchedDomain
                      ScoreImpact := (findCheck "DomainImpersonation").Impact
                      SuspectSubdomain := subdomain }
        | 1 => some { Status := "DomainExactMatch"
                      Message := "Domain is in the known database."
                      MatchedDomain := matchedDomain
                      ScoreImpact := (findCheck "DomainExactMatch").Impact
                      SuspectSubdomain := subdomain }
        | _ => some { Status := "DomainNoSimilarity"
                      Message := "Domain not in database, and no similarities found."
                      MatchedDomain := matchedDomain
                      ScoreImpact := (findCheck "DomainNoSimilarity").Impact
                      SuspectSubdomain := subdomain }

/-! ### Content analysis (main.go text/rendered paths, part_003 `whoTheyAre`,
`verifyCompany`) -/

/-- Go `type EmailAnalysis struct` (part_003:699-707), the parsed Gemini judgment. -/
structure EmailAnalysis where
  OrganizationFound : Bool
  OrganizationName : String
  SummaryOfEmail : String
  ActionRequired : Bool
  Action : String
  Realistic : Bool
  RealisticReason : String
deriving DecidableEq

/-- Go `type CompanyIdentificationResult struct` (main.go:57-61). -/
structure CompanyIdentificationResult where
  Identified : Bool
  Name : String
  ScoreImpact : Int
deriving DecidableEq

/-- Go `type CompanyVerificationResult struct` (main.go:62-66). -/
structure CompanyVerificationResult where
  Verified : Bool
  Message : String
  ScoreImpact : Int
deriving DecidableEq

/-- Go `type ActionAnalysisResult struct` (main.go:67-70). -/
structure ActionAnalysisResult where
  ActionRequired : Bool
  Action : String
deriving DecidableEq

/-- Go `type RealismAnalysisResult struct` (main.go:71-75). -/
structure RealismAnalysisResult where
  IsRealistic : Bool
  Reason : String
  ScoreImpact : Int
deriving DecidableEq

/-- Go `type PhoneNumbersValidation struct` (main.go:76-79). -/
structure PhoneNumbersValidation where
  PhoneNumber : String
  IsValid : Bool
deriving DecidableEq

/-- Go `type ContactMethodResult struct` (main.go:80-83). -/
structure ContactMethodResult where
  PhoneNumbers : List PhoneNumbersValidation
  ScoreImpact : Int
deriving DecidableEq

/-- Go `type ContentAnalysisResult struct` (main.go:84-92). -/
structure ContentAnalysisResult where
  CompanyIdentification : CompanyIdentificationResult
  CompanyVerification : CompanyVerificationResult
  ActionAnalysis : ActionAnalysisResult
  Summary : String
  RealismAnalysis : RealismAnalysisResult
  ContactMethodAnalysis : ContactMethodResult
  Error : String
deriving DecidableEq

/-- The Go zero value `ContentAnalysisResult{}` (`var result ContentAnalysisResult`):
all flags false, all impacts 0, all strings empty, no phone numbers. -/
def zeroContentAnalysisResult : ContentAnalysisResult :=
  { CompanyIdentification := { Identified := false, Name := "", ScoreImpact := 0 }
    CompanyVerification := { Verified := false, Message := "", ScoreImpact := 0 }
    ActionAnalysis := { ActionRequired := false, Action := "" }
    Summary := ""
    RealismAnalysis := { IsRealistic := false, Reason := "", ScoreImpact := 0 }
    ContactMethodAnalysis := { PhoneNumbers := [], ScoreImpact := 0 }
    Error := "" }

/-- Go `populateContentAnalysis` (main.go:622-666).  `verified` is the boolean
`verifyCompany` returned (its error, if any, is only logged and the returned
boolean — the Go zero value `false` on error paths — is used regardless);
`verifyCompany` is only ever consulted when the organization was identified. -/
def populateContentAnalysis (whoResult : EmailAnalysis) (verified : Bool) :
    ContentAnalysisResult :=
  { zeroContentAnalysisResult with
    CompanyIdentification :=
      { Identified := whoResult.OrganizationFound
        Name := whoResult.OrganizationName
        ScoreImpact := if whoResult.OrganizationFound then
          (findCheck "CompanyIdentified").Impact else 0 }
    CompanyVerification :=
      if whoResult.OrganizationFound then
        { Verified := verified
          ScoreImpact := if verified then (findCheck "CompanyVerified").Impact else 0
          Message := if verified then
              "The sender\x27s domain aligns with the company they claim to be."
            else
              "Could not verify the sender\x27s domain against the identified company." }
      else { Verified := false, Message := "", ScoreImpact := 0 }
    ActionAnalysis :=
      { ActionRequired := whoResult.ActionRequired, Action := whoResult.Action }
    Summary := whoResult.SummaryOfEmail
    RealismAnalysis :=
      { IsRealistic := whoResult.Realistic
        Reason := whoResult.RealisticReason
        ScoreImpact := if whoResult.Realistic then
          (findCheck "RealismCheck").Impact else 0 } }

/-- The phone-number validation block shared verbatim by `performTextAnalysis`
(main.go:507-547) and `performRenderedAnalysis` (main.go:574-615).  `validate`
abstracts the two nested Google Custom Search calls deciding `isValid` for one
extracted number.  With no numbers the category impact is granted outright;
otherwise the loop appends each validation and credits the impact at the first
valid number only, guarded by the `scoreImpactApplied` flag. -/
def contactMethodStep (validate : String → Bool)
    (st : ContactMethodResult × Bool) (number : String) : ContactMethodResult × Bool :=
  let isValid := validate number
  let st :=
    if isValid && !st.2 then
      ({ st.1 with ScoreImpact := (findCheck "CorrectPhoneNumber").Impact }, true)
    else st
  ({ st.1 with
      PhoneNumbers := st.1.PhoneNumbers ++
        [{ PhoneNumber := number, IsValid := isValid }] }, st.2)

/-- The loop itself; the second state component is the `scoreImpactApplied` flag. -/
def contactMethodAnalysis (validate : String → Bool)
    (phoneNumbers : List String) : ContactMethodResult :=
  if phoneNumbers.isEmpty then
    { PhoneNumbers := [], ScoreImpact := (findCheck "CorrectPhoneNumber").Impact }
  else
    (phoneNumbers.foldl (contactMethodStep validate)
      ({ PhoneNumbers := [], ScoreImpact := 0 }, false)).1

/-- Go `performTextAnalysis` (main.go:492-550) as the `textAnalysis` event payload.
`who` is the outcome of the external `whoTheyAre` call, `verified` the
`verifyCompany` boolean, `phoneNumbers` the numbers `extractPhoneNumbersFromEmail`
pulls from `Email.Text + "\n" + Email.HTML`, and `validate` the per-number search
validation. -/
def performTextAnalysis (who : Except String EmailAnalysis) (verified : Bool)
    (phoneNumbers : List String) (validate : String → Bool) : ContentAnalysisResult :=
  match who with
  | .error _ =>
      { zeroContentAnalysisResult with Error := "Failed to analyse email content." }
  | .ok whoResult =>
      let result := populateContentAnalysis whoResult verified
      { result with ContactMethodAnalysis := contactMethodAnalysis validate phoneNumbers }

/-- Go `performRenderedAnalysis` (main.go:552-619) as the `renderedAnalysis` event
payload.  `ocrText` is what `OCRImage` extracted from the rendered screenshot.
When it is empty the function only logs ("No text extracted from rendered email.")
and falls through to send the still-zero `result` — including its empty `Error`
field.  Otherwise it mirrors the text path on the OCR-extracted numbers. -/
def performRenderedAnalysis (ocrText : String) (who : Except String EmailAnalysis)
    (verified : Bool) (phoneNumbers : List String) (validate : String → Bool) :
    ContentAnalysisResult :=
  if ocrText = "" then
    zeroContentAnalysisResult
  else
    match who with
    | .error _ =>
        { zeroContentAnalysisResult with
            Error := "Failed to analyse rendered email screenshot." }
    | .ok whoResult =>
        let result := populateContentAnalysis whoResult verified
        { result with ContactMethodAnalysis := contactMethodAnalysis validate phoneNumbers }

/-! ### Company verification (part_003 `verifyCompany`) -/

/-- One row of the `websites` corpus as `verifyCompany` queries it:
`SELECT domain FROM websites WHERE item_label = ?`. -/
structure WebsiteRow where
  item_label : String
  domain : String
deriving DecidableEq

/-- How the bound Go value reaches the sqlite comparison: the driver binds a Go
`bool` as the integer 1/0, and against the TEXT-affinity `item_label` column the
comparison is performed on that value's text rendering. -/
def sqliteBoolText (b : Bool) : String := if b then "1" else "0"

/-- Go `verifyCompany` (part_003:1405-1447).  The DB pass filters the corpus with
`item_label = ?` where the bound parameter is `whoTheyAreResult.OrganizationFound`
— the *boolean* field, not the organization's name — and succeeds if any returned
domain equals the sender domain.  The Google fallback is abstracted to the
eTLD+1 of the first result link (`none` = the result list was empty, which Go
answers with `(false, nil)`; a search/decoding error propagates). -/
def verifyCompany (websites : List WebsiteRow) (whoTheyAreResult : EmailAnalysis)
    (emailDomain : String) (googleFirstLinkDomain : Except String (Option String)) :
    Except String Bool :=
  let rows := websites.filter
    (fun r => r.item_label == sqliteBoolText whoTheyAreResult.OrganizationFound)
  if rows.any (fun r => r.domain == emailDomain) then
    .ok true
  else
    match googleFirstLinkDomain with
    | .error e => .error e
    | .ok none => .ok false
    | .ok (some linkDomain) => .ok (linkDomain == emailDomain)

/-! ### Final aggregation (main.go `calculateFinalScores`) -/

/-- Go `type ExecutableAnalysisResult struct` (main.go:52-56). -/
structure ExecutableAnalysisResult where
  Found : Bool
  Message : String
  ScoreImpact : Int
deriving DecidableEq

/-- Go `type ScoreResult struct` (main.go:94-101).  `MaxPossibleScore` is a Go
`float64` holding the integral `MaxScore()`; the percentages are `float64`
quotients, modelled exactly in `ℚ` (the involved values are small enough that
binary floating point and exact arithmetic agree on everything stated here). -/
structure ScoreResult where
  BaseScore : Int
  FinalScoreNormal : Int
  FinalScoreRendered : Int
  MaxPossibleScore : Int
  NormalPercentage : ℚ
  RenderedPercentage : ℚ
deriving DecidableEq

/-- The per-event data `streamEmailHandler` collects from `resultsChan`
(`allCheckData`, main.go:278-282): at most one payload per event name; `none`
models a task that finished without sending its event, in which case the Go type
assertion in `calculateFinalScores` fails and the zero value is used. -/
structure AllCheckData where
  domainAnalysis : Option DomainAnalysisResult
  urlAnalysis : Option URLAnalysisResult
  executableAnalysis : Option ExecutableAnalysisResult
  textAnalysis : Option ContentAnalysisResult
  renderedAnalysis : Option ContentAnalysisResult

/-- Go `calculateFinalScores` (main.go:671-744).  Base score = executable + domain
+ URL impacts; each path's final score adds its four content impacts; percentages
divide by `MaxScore()` when positive. -/
def calculateFinalScores (data : AllCheckData) : ScoreResult :=
  let domainData := data.domainAnalysis.getD zeroDomainAnalysisResult
  let textData := data.textAnalysis.getD zeroContentAnalysisResult
  let renderedData := data.renderedAnalysis.getD zeroContentAnalysisResult
  let baseScore :=
    (match data.executableAnalysis with
     | some execData => execData.ScoreImpact
     | none => 0)
    + domainData.ScoreImpact
    + (match data.urlAnalysis with
       | some urlData => urlData.ScoreImpact
       | none => 0)
  let finalScoreNormal := baseScore
    + textData.CompanyIdentification.ScoreImpact
    + textData.CompanyVerification.ScoreImpact
    + textData.RealismAnalysis.ScoreImpact
    + textData.ContactMethodAnalysis.ScoreImpact
  let finalScoreRendered := baseScore
    + renderedData.CompanyIdentification.ScoreImpact
    + renderedData.CompanyVerification.ScoreImpact
    + renderedData.RealismAnalysis.ScoreImpact
    + renderedData.ContactMethodAnalysis.ScoreImpact
  let maxScoreVal := MaxScore
  { BaseScore := baseScore
    FinalScoreNormal := finalScoreNormal
    FinalScoreRendered := finalScoreRendered
    MaxPossibleScore := maxScoreVal
    NormalPercentage :=
      if maxScoreVal > 0 then (finalScoreNormal : ℚ) / (maxScoreVal : ℚ) * 100 else 0
    RenderedPercentage :=
      if maxScoreVal > 0 then (finalScoreRendered : ℚ) / (maxScoreVal : ℚ) * 100 else 0 }

/-- A concrete Gemini judgment used by concrete instances below. -/
def sampleEmailAnalysis : EmailAnalysis :=
  { OrganizationFound := true
    OrganizationName := "Acme Limited"
    SummaryOfEmail := "An invoice reminder."
    ActionRequired := false
    Action := ""
    Realistic := true
    RealisticReason := "Nothing unusual." }

/-- A concrete corpus row whose label is an organization name. -/
def sampleWebsiteRow : WebsiteRow :=
  { item_label := "Acme Limited", domain := "acme.com" }

/-! ### Theorems -/

/-- Behaviour of the phone-validation fold from an arbitrary intermediate state:
the validations are appended in order, the applied flag absorbs `any validate`,
and the score impact is set (once) exactly when the flag was still clear and some
number validates. -/
theorem contactMethodStep_foldl (validate : String → Bool) (ns : List String)
    (acc : ContactMethodResult) (applied : Bool) :
    ns.foldl (contactMethodStep validate) (acc, applied) =
      ({ PhoneNumbers := acc.PhoneNumbers ++
            ns.map (fun n => { PhoneNumber := n, IsValid := validate n })
         ScoreImpact := if !applied && ns.any validate then
            (findCheck "CorrectPhoneNumber").Impact else acc.ScoreImpact },
       applied || ns.any validate) := by
  induction ns generalizing acc applied with
  | nil => simp
  | cons n ns ih =>
      by_cases hv : validate n = true <;> by_cases ha : applied = true <;>
        simp [contactMethodStep, hv, ha, List.foldl_cons, ih]

/-- Claim C1: `MaxScoreFor` gives the domain category the single highest positive
impact among its three mutually-exclusive outcomes (30, never the sum 30+17+12),
and every other enabled category the sum of its positive impacts (URLs 10,
attachments 3, content 3+20+25+52), with disabled categories contributing zero;
with only the domain category enabled the result is exactly 30. -/
theorem maxScoreFor_domain_single_highest :
    (∀ enabled : EnabledMap, MaxScoreFor enabled =
        (if isEnabled enabled "checkDomain" then 30 else 0)
        + (if isEnabled enabled "checkUrls" then 10 else 0)
        + (if isEnabled enabled "checkAttachments" then 3 else 0)
        + (if isEnabled enabled "checkTextAnalysis"
              || isEnabled enabled "checkRenderedAnalysis" then 52 else 0))
    ∧ maxDomainImpact = max (positiveImpact "DomainExactMatch")
        (max (positiveImpact "DomainNoSimilarity") (positiveImpact "freeMailMatch"))
    ∧ maxDomainImpact = 30
    ∧ maxDomainImpact ≠ positiveImpact "DomainExactMatch"
        + positiveImpact "DomainNoSimilarity" + positiveImpact "freeMailMatch"
    ∧ textAnalysisImpact = positiveImpact "CompanyIdentified"
        + positiveImpact "CompanyVerified" + positiveImpact "RealismCheck"
        + positiveImpact "CorrectPhoneNumber"
    ∧ MaxScoreFor (fun key => if key == "checkDomain" then some true else some false) = 30 := by
  exact ⟨fun enabled => rfl, by decide, by decide, by decide, by decide, by decide⟩

/-- Claim C2: the `FinalDecision` a `checkURLs` verdict carries is true exactly when
the platform's own malicious flag is set, or the numeric score is strictly
positive, or some category tag is "phishing" or "malware". -/
theorem checkURLs_finalDecision_or_semantics (score : Int) (categories : List String)
    (report : String) (malicious : Bool) :
    (checkURLsVerdict score categories report malicious).FinalDecision = true ↔
      (malicious = true ∨ 0 < score ∨
        ∃ cat ∈ categories, cat = "phishing" ∨ cat = "malware") := by
  by_cases hm : malicious = true <;> by_cases hs : (0 : Int) < score <;>
    simp [checkURLsVerdict, finalAppDecision, hm, hs, List.any_eq_true,
      Int.lt_iff_add_one_le]

/-- Claim C3: the URL pipeline's aggregate counts the verdicts whose own
`FinalDecision` is set; any such verdict yields status `MaliciousURLsDetected`
with zero category impact, and only a fully clean list earns the check's full
positive impact (10).  In the spec's scenario — five URLs, one with the platform
malicious flag set, the rest clean — the count is 1 and the impact 0. -/
theorem urlAggregation_malicious_zeroes_category (verdicts : List Verdict) :
    (performURLAnalysisAggregate verdicts).MaliciousCount =
        (verdicts.filter (fun v => v.FinalDecision)).length
    ∧ (performURLAnalysisAggregate verdicts).Status =
        (if verdicts.any (fun v => v.FinalDecision) then "MaliciousURLsDetected"
         else "Clean")
    ∧ (performURLAnalysisAggregate verdicts).ScoreImpact =
        (if verdicts.any (fun v => v.FinalDecision) then 0 else 10)
    ∧ (findCheck "MaliciousURLFound").Impact = 10
    ∧ performURLAnalysisAggregate
        (checkURLsVerdict 0 [] "" true ::
          List.replicate 4 (checkURLsVerdict 0 [] "" false)) =
      { Status := "MaliciousURLsDetected"
        Message := "1 malicious URL(s) were detected."
        MaliciousCount := 1
        ScoreImpact := 0
        UrlVerdicts := checkURLsVerdict 0 [] "" true ::
          List.replicate 4 (checkURLsVerdict 0 [] "" false) } := by
  have hkey : ((verdicts.any fun v => v.FinalDecision) = true) ↔
      0 < (verdicts.filter fun v => v.FinalDecision).length := by
    rw [List.any_eq_true, List.length_pos, ne_eq, List.filter_eq_nil_iff]
    push_neg
    simp
  have hImp : (findCheck "MaliciousURLFound").Impact = 10 := by decide
  refine ⟨?_, ?_, ?_, rfl, by decide⟩ <;>
    · simp only [performURLAnalysisAggregate]
      split
      · next h => have hany := hkey.mpr h; simp [hany]
      · next h =>
          have hany : (verdicts.any fun v => v.FinalDecision) = false := by
            cases hb : verdicts.any fun v => v.FinalDecision
            · rfl
            · exact absurd (hkey.mp hb) h
          simp [hany, hImp]

/-- Claim C4: on either content path, the phone-number loop credits the
`CorrectPhoneNumber` impact (4) exactly once as soon as at least one extracted
number validates — the score field equals the one produced when exactly one
number validates — with the `scoreImpactApplied` flag preventing repetition; with
no extracted numbers the credit is granted outright, and with only failing
numbers it stays 0. -/
theorem contactMethod_impact_idempotent (validate : String → Bool)
    (phoneNumbers : List String) :
    (contactMethodAnalysis validate phoneNumbers).ScoreImpact =
      (if phoneNumbers.isEmpty || phoneNumbers.any validate then 4 else 0)
    ∧ (contactMethodAnalysis validate phoneNumbers).PhoneNumbers =
      (if phoneNumbers.isEmpty then [] else
        phoneNumbers.map (fun n => { PhoneNumber := n, IsValid := validate n }))
    ∧ (findCheck "CorrectPhoneNumber").Impact = 4
    ∧ (contactMethodAnalysis (fun _ => true) ["n1", "n2", "n3"]).ScoreImpact =
      (contactMethodAnalysis (fun _ => true) ["n1"]).ScoreImpact := by
  have hImpact : (findCheck "CorrectPhoneNumber").Impact = 4 := by decide
  refine ⟨?_, ?_, hImpact, by decide⟩ <;>
    · by_cases he : phoneNumbers.isEmpty <;>
        simp [contactMethodAnalysis, he, contactMethodStep_foldl, hImpact]

/-- Claim C5: a candidate whose normalization is absent from the corpus but within
the length-scaled Levenshtein threshold of some entry is classified as a
look-alike (code 0, `DomainImpersonation`); in the spec's concrete scenario,
"examp1e.com" (normalized length 11, threshold 1) against the corpus entry
"example.com" (distance 1) yields the look-alike classification carrying
"example.com". -/
theorem checkDomainReal_impersonation (corpus : List String) (cand : String)
    (habsent : normalizeDomain cand ∉ corpus)
    (hclose : ∃ e ∈ corpus,
      levenshteinDistance (normalizeDomain cand) (strToLower e) ≤
        levThreshold (normalizeDomain cand).utf8ByteSize) :
    (checkDomainReal corpus cand).1 = 0
    ∧ checkDomainReal ["example.com"] "examp1e.com" = (0, "example.com")
    ∧ levThreshold (normalizeDomain "examp1e.com").utf8ByteSize = 1
    ∧ levenshteinDistance "examp1e.com" "example.com" = 1 := by
  refine ⟨?_, by decide, by decide, by decide⟩
  simp only [checkDomainReal]
  rw [if_neg (by simpa using habsent)]
  cases hfind : corpus.find? (fun dbDomain =>
      decide (levenshteinDistance (normalizeDomain cand) (strToLower dbDomain) ≤
        levThreshold (normalizeDomain cand).utf8ByteSize)) with
  | some d => simp [hfind]
  | none =>
      exfalso
      obtain ⟨e, he, hle⟩ := hclose
      have := List.find?_eq_none.mp hfind e he
      simp at this
      omega

/-- Witness for `checkDomainReal_impersonation` at the spec scenario. -/
theorem checkDomainReal_impersonation_witness :
    normalizeDomain "examp1e.com" ∉ ["example.com"]
    ∧ (checkDomainReal ["example.com"] "examp1e.com").1 = 0 :=
  ⟨by decide,
    (checkDomainReal_impersonation ["example.com"] "examp1e.com" (by decide)
      ⟨"example.com", by decide, by decide⟩).1⟩

/-- Claim C6 counterexample: the corpus entry "Example.com" is present verbatim,
yet the matcher classifies the identical candidate "Example.com" as a look-alike
(code 0, `DomainImpersonation`), not as an exact match (code 1): the exact-match
lookup compares the lower-cased candidate "example.com" case-sensitively against
the corpus and misses, after which the fuzzy scan (distance 0 to the lower-cased
entry) fires. -/
theorem checkDomainReal_verbatim_counterexample :
    "Example.com" ∈ ["Example.com"]
    ∧ checkDomainReal ["Example.com"] "Example.com" = (0, "Example.com")
    ∧ (checkDomainReal ["Example.com"] "Example.com").1 ≠ 1 := by
  decide

/-- Claim C6 (amended): every domain string whose *normalization* (lower-casing,
IDNA) is present verbatim in the corpus is classified as an exact match (code 1,
`DomainExactMatch`), and the matched entry returned is that normalized candidate
— not necessarily the original string. -/
theorem checkDomainReal_normalized_exact_match (corpus : List String) (cand : String)
    (h : normalizeDomain cand ∈ corpus) :
    checkDomainReal corpus cand = (1, normalizeDomain cand) := by
  simp only [checkDomainReal]
  rw [if_pos (by simpa using h)]

/-- Witness for `checkDomainReal_normalized_exact_match`. -/
theorem checkDomainReal_normalized_exact_match_witness :
    normalizeDomain "EXAMPLE.com" ∈ ["example.com"]
    ∧ checkDomainReal ["example.com"] "EXAMPLE.com" = (1, normalizeDomain "EXAMPLE.com") :=
  ⟨by decide,
    checkDomainReal_normalized_exact_match ["example.com"] "EXAMPLE.com" (by decide)⟩

/-- Claim C7 counterexample: when the corpus query fails, `performDomainAnalysis`
only logs and returns — it sends *no* `domainAnalysis` event at all (here: `none`),
so in particular no error payload reaches the stream. -/
theorem domainAnalysis_dbError_counterexample :
    performDomainAnalysis (.error .queryFailed) "acme-corp.com" "mail.acme-corp.com"
      = none := by
  decide

/-- Claim C7 (amended): a corpus-query failure makes the domain task return
silently, without emitting any `domainAnalysis` event (no error payload); the
sibling tasks and the final aggregation are unaffected — aggregation still runs,
with a missing domain event contributing exactly what a zero-impact domain result
would. -/
theorem domainAnalysis_dbError_isolated (subdomain : String) (e : DomainDBError)
    (u : Option URLAnalysisResult) (ex : Option ExecutableAnalysisResult)
    (t r : Option ContentAnalysisResult) :
    performDomainAnalysis (.error e) "acme-corp.com" subdomain = none
    ∧ calculateFinalScores ⟨none, u, ex, t, r⟩ =
      calculateFinalScores ⟨some zeroDomainAnalysisResult, u, ex, t, r⟩ :=
  ⟨rfl, rfl⟩

/-- Claim C8 counterexample: when OCR returns the empty string, the
`renderedAnalysis` event carries the zero-valued result — its `Error` field is the
empty string, i.e. it is not an error payload. -/
theorem renderedAnalysis_emptyOCR_counterexample :
    performRenderedAnalysis "" (.ok sampleEmailAnalysis) true ["+441234567890"]
      (fun _ => true) = zeroContentAnalysisResult
    ∧ (performRenderedAnalysis "" (.ok sampleEmailAnalysis) true ["+441234567890"]
      (fun _ => true)).Error = "" :=
  ⟨rfl, rfl⟩

/-- Claim C8 (amended): with empty OCR text the rendered task still emits its
event, but the payload is the zero-valued result (empty `Error` field), not an
error payload; `finalScoreRendered` then excludes every rendered content
contribution (it equals the base score), the text-path score is unaffected, and
the aggregation producing the closing `finalScores` event still runs. -/
theorem renderedAnalysis_emptyOCR_degrades (who : Except String EmailAnalysis)
    (verified : Bool) (phoneNumbers : List String) (validate : String → Bool)
    (d : Option DomainAnalysisResult) (u : Option URLAnalysisResult)
    (ex : Option ExecutableAnalysisResult) (t : Option ContentAnalysisResult) :
    performRenderedAnalysis "" who verified phoneNumbers validate =
      zeroContentAnalysisResult
    ∧ (calculateFinalScores ⟨d, u, ex, t,
        some (performRenderedAnalysis "" who verified phoneNumbers validate)⟩).FinalScoreRendered =
      (calculateFinalScores ⟨d, u, ex, t,
        some (performRenderedAnalysis "" who verified phoneNumbers validate)⟩).BaseScore
    ∧ (calculateFinalScores ⟨d, u, ex, t,
        some (performRenderedAnalysis "" who verified phoneNumbers validate)⟩).FinalScoreNormal =
      (calculateFinalScores ⟨d, u, ex, t, none⟩).FinalScoreNormal := by
  refine ⟨rfl, ?_, rfl⟩
  simp [calculateFinalScores, performRenderedAnalysis, zeroContentAnalysisResult]

/-- Claim C9: with the compile-time constant `isURLScanEnabled` equal to false,
`performURLAnalysis` emits, for every request, the `Disabled` status carrying the
`MaliciousURLFound` check's full positive impact (10), independently of the
email's bodies and of whatever the scan fan-out would have found, and that
impact is unconditionally added to the base score. -/
theorem urlScan_disabled_full_credit (emailHTML emailText : String)
    (resolvedVerdicts : List Verdict)
    (d : Option DomainAnalysisResult) (ex : Option ExecutableAnalysisResult)
    (t r : Option ContentAnalysisResult) :
    isURLScanEnabled = false
    ∧ performURLAnalysis emailHTML emailText resolvedVerdicts =
      { Status := "Disabled"
        Message := "Url analysis has been turned of by developer temporarily."
        MaliciousCount := 0
        ScoreImpact := (findCheck "MaliciousURLFound").Impact
        UrlVerdicts := [] }
    ∧ (findCheck "MaliciousURLFound").Impact = 10
    ∧ (calculateFinalScores
        ⟨d, some (performURLAnalysis emailHTML emailText resolvedVerdicts), ex, t, r⟩).BaseScore =
      (calculateFinalScores ⟨d, none, ex, t, r⟩).BaseScore + 10 := by
  have hImp : (findCheck "MaliciousURLFound").Impact = 10 := by decide
  refine ⟨rfl, rfl, hImp, ?_⟩
  simp [calculateFinalScores, performURLAnalysis, isURLScanEnabled, hImp]
  try ring

/-- Claim C10: `verifyCompany` binds the boolean `OrganizationFound` — not the
organization's name — as the `item_label` parameter, so its database pass can only
match rows whose label is a boolean's rendering; over any corpus whose labels are
organization names (never such a rendering) the outcome coincides with running
the Google-search fallback alone (the empty-corpus run). -/
theorem verifyCompany_bool_binding (websites : List WebsiteRow) (who : EmailAnalysis)
    (emailDomain : String) (googleFirstLinkDomain : Except String (Option String))
    (h : ∀ row ∈ websites, row.item_label ≠ "0" ∧ row.item_label ≠ "1"
        ∧ row.item_label ≠ "false" ∧ row.item_label ≠ "true") :
    verifyCompany websites who emailDomain googleFirstLinkDomain =
      verifyCompany [] who emailDomain googleFirstLinkDomain := by
  simp only [verifyCompany]
  have hfilter : websites.filter
      (fun r => r.item_label == sqliteBoolText who.OrganizationFound) = [] := by
    rw [List.filter_eq_nil_iff]
    intro r hr
    obtain ⟨h0, h1, _, _⟩ := h r hr
    cases who.OrganizationFound <;> simp [sqliteBoolText, h0, h1]
  rw [hfilter]
  simp

/-- Witness for `verifyCompany_bool_binding`: a corpus row whose label is the very
organization claimed and whose domain equals the sender's domain is still ignored
by the database pass. -/
theorem verifyCompany_bool_binding_witness :
    (∀ row ∈ [sampleWebsiteRow], row.item_label ≠ "0" ∧ row.item_label ≠ "1"
        ∧ row.item_label ≠ "false" ∧ row.item_label ≠ "true")
    ∧ verifyCompany [sampleWebsiteRow] sampleEmailAnalysis "acme.com" (.ok none) =
      verifyCompany [] sampleEmailAnalysis "acme.com" (.ok none) :=
  ⟨by decide,
    verifyCompany_bool_binding [sampleWebsiteRow] sampleEmailAnalysis "acme.com"
      (.ok none) (by decide)⟩

end EmailChecker
